import Mathlib

/-!
# AtaraxAi plan-generation and rolling-window engine: verification

Shallow embedding of the plan-generation core of the AtaraxAi repository:

* `app/services/adaptive_training_generator.py` (`AdaptiveTrainingGenerator`)
* `app/services/simple_training_generator.py`
* `app/services/training_plan_generator.py` (`TriathlonTrainingPlanGenerator`)
* `app/repositories/goal.py` (`GoalRepository`)
* `app/models/goal.py` (`Goal`), `app/models/training.py` (`Workout`, `WorkoutLog`)
* `app/api/v1/endpoints/training.py` (`complete_workout`)
* `app/api/v1/endpoints/goals.py` (`create_goal`)

Conventions: Python `int` is modelled as `ℤ` (or `ℕ` where the source value is
a count that is always non-negative), Python `float` arithmetic is modelled
exactly over `ℚ` (in every comparison the code performs, the float rounding
error is orders of magnitude below the distance to the threshold, so the
rational model decides each comparison the same way), Python `//` on `ℤ` is
`Int.fdiv`, Python `int(x)` truncation toward zero is `pyInt`, nullable
columns/keys are `Option`, and SQL tables are lists of records.
-/

namespace AtaraxAi

/-- Python `int(x)`: truncation of a rational toward zero. -/
def pyInt (q : ℚ) : ℤ := if 0 ≤ q then ⌊q⌋ else -⌊-q⌋

/-- `GoalType` enum from `app/models/goal.py`. -/
inductive GoalType
  | triathlon | marathon | halfMarathon | tenK | fiveK | cycling | centuryRide
  | swimming | weightLoss | strengthTraining | muscleGain | generalFitness
  | obstacleRace | ironman | custom
deriving DecidableEq

/-- `GoalStatus` enum from `app/models/goal.py`. -/
inductive GoalStatus
  | planning | active | completed | paused | cancelled
deriving DecidableEq

/-- `WorkoutType` enum from `app/models/training.py`. -/
inductive WorkoutType
  | swim | bike | run | strength | rest | crossTraining | brick
deriving DecidableEq

/-- `WorkoutIntensity` enum from `app/models/training.py`. -/
inductive WorkoutIntensity
  | recovery | easy | moderate | hard | veryHard
deriving DecidableEq

/-- `TrainingPhase` enum from `app/models/training.py`. -/
inductive TrainingPhase
  | base | build | peak | taper | recovery
deriving DecidableEq

/-- The four phase week counts carried by a plan structure
(`base_weeks`, `build_weeks`, `peak_weeks`, `taper_weeks`). -/
structure PhaseWeeks where
  base_weeks : ℤ
  build_weeks : ℤ
  peak_weeks : ℤ
  taper_weeks : ℤ
deriving DecidableEq

/-- All four phase week counts are non-negative. -/
def PhaseWeeks.Nonneg (p : PhaseWeeks) : Prop :=
  0 ≤ p.base_weeks ∧ 0 ≤ p.build_weeks ∧ 0 ≤ p.peak_weeks ∧ 0 ≤ p.taper_weeks

instance (p : PhaseWeeks) : Decidable p.Nonneg := by
  unfold PhaseWeeks.Nonneg; infer_instance

/-- Sum of the four phase week counts. -/
def PhaseWeeks.sum (p : PhaseWeeks) : ℤ :=
  p.base_weeks + p.build_weeks + p.peak_weeks + p.taper_weeks

/-- Phase-week portion of `AdaptiveTrainingGenerator._get_plan_structure`
(`adaptive_training_generator.py` lines 102-159).  The name/description
strings and the weekly session counts of the returned dict are not needed by
any claim and are omitted; the four phase week counts are embedded exactly. -/
def getPlanStructure (goalType : GoalType) (total_weeks : ℤ) : PhaseWeeks :=
  if goalType = .triathlon then
    { base_weeks := max 6 (total_weeks.fdiv 2)
      build_weeks := max 4 (total_weeks.fdiv 3)
      peak_weeks := max 2 (total_weeks.fdiv 8)
      taper_weeks := 2 }
  else if goalType = .marathon then
    { base_weeks := max 8 ((total_weeks * 2).fdiv 3)
      build_weeks := max 6 (total_weeks.fdiv 4)
      peak_weeks := 2
      taper_weeks := 3 }
  else
    { base_weeks := max 4 (total_weeks.fdiv 3)
      build_weeks := max 4 (total_weeks.fdiv 3)
      peak_weeks := max 2 (total_weeks.fdiv 6)
      taper_weeks := 1 }

/-- Phase-week portion of `create_simple_training_plan`
(`simple_training_generator.py` lines 31-46): `base_weeks=total_weeks // 2`,
`build_weeks=total_weeks // 3`, `peak_weeks=2`, `taper_weeks=1`. -/
def simplePlanPhases (total_weeks : ℤ) : PhaseWeeks :=
  { base_weeks := total_weeks.fdiv 2
    build_weeks := total_weeks.fdiv 3
    peak_weeks := 2
    taper_weeks := 1 }

/-- `TriathlonTrainingPlanGenerator._calculate_phase_distribution`
(`training_plan_generator.py` lines 41-54). -/
def calculatePhaseDistribution (total : ℤ) : PhaseWeeks :=
  if total ≤ 12 then
    { base_weeks := 5, build_weeks := 4, peak_weeks := 2, taper_weeks := 1 }
  else if total ≤ 16 then
    { base_weeks := 7, build_weeks := 5, peak_weeks := 3, taper_weeks := 1 }
  else if total ≤ 20 then
    { base_weeks := 9, build_weeks := 6, peak_weeks := 3, taper_weeks := 2 }
  else if total ≤ 24 then
    { base_weeks := 11, build_weeks := 8, peak_weeks := 3, taper_weeks := 2 }
  else
    { base_weeks := 14, build_weeks := 10, peak_weeks := 4, taper_weeks := 2 }

/-- `GoalRepository.create_goal` total-weeks computation (`goal.py` lines
50-70): with an event date, `max(4, min(32, days_until_event // 7))`;
without one, `12`.  The argument is `days_until_event` when an event date is
present. -/
def createGoalTotalWeeks (daysUntilEvent : Option ℤ) : ℤ :=
  match daysUntilEvent with
  | some d => max 4 (min 32 (d.fdiv 7))
  | none => 12

/-- `AdaptiveTrainingGenerator.create_adaptive_training_plan` total-weeks
computation (`adaptive_training_generator.py` lines 34-39): with an event
date, `max(8, days_available // 7)`; without one, `16`.
(`create_simple_training_plan`, lines 23-28, computes the same value.) -/
def adaptivePlanTotalWeeks (daysAvailable : Option ℤ) : ℤ :=
  match daysAvailable with
  | some d => max 8 (d.fdiv 7)
  | none => 16

/-- A workout descriptor: the dict passed around by the generators and the
columns of the `Workout` row built from it.  `scheduled_date` (pure date
arithmetic on the week start), `week_number` and `phase` (copied verbatim
from the enclosing loop) carry no claim-relevant content and are omitted;
numeric string formatting inside names (Python `f"...{x:.1f}..."`) is
rendered with `toString`. -/
structure WorkoutDescriptor where
  name : String
  workout_type : WorkoutType
  intensity : WorkoutIntensity
  day_of_week : ℤ
  duration_minutes : ℤ
  distance_miles : Option ℚ := none
  total_yards : Option ℚ := none
  description : String := ""
deriving DecidableEq

/-- `AdaptiveTrainingGenerator._generate_week_workouts`
(`adaptive_training_generator.py` lines 366-394): for triathlon goals a
fixed 4-workout week on days 1, 2, 3 and 5; for every other goal type the
empty list. -/
def adaptiveWeekWorkouts (goalType : GoalType) (week : ℤ) : List WorkoutDescriptor :=
  if goalType = .triathlon then
    [ { name := "Swim Technique - Week " ++ toString week
        workout_type := .swim, intensity := .easy, day_of_week := 1
        duration_minutes := 45, total_yards := some (400 + week * 50) }
    , { name := "Bike Endurance - Week " ++ toString week
        workout_type := .bike, intensity := .moderate, day_of_week := 2
        duration_minutes := 60, distance_miles := some (8 + week * (1/2)) }
    , { name := "Easy Run - Week " ++ toString week
        workout_type := .run, intensity := .easy, day_of_week := 3
        duration_minutes := 30, distance_miles := some (2 + week * (1/10)) }
    , { name := "Functional Strength - Week " ++ toString week
        workout_type := .strength, intensity := .moderate, day_of_week := 5
        duration_minutes := 30 } ]
  else
    []

/-- Phase → base intensity table at the top of `generate_week_workouts`
(`simple_training_generator.py` lines 86-92).  The source indexes the dict
with the phase coming from `create_simple_training_plan`, which only ever
produces `BASE`/`BUILD`/`PEAK`/`TAPER`; the `RECOVERY` member would raise a
`KeyError` and is mapped to `easy` here (the `TAPER` value) to keep the
function total. -/
def simpleBaseIntensity : TrainingPhase → WorkoutIntensity
  | .base => .easy
  | .build => .moderate
  | .peak => .hard
  | .taper => .easy
  | .recovery => .easy

/-- `generate_triathlon_week` (`simple_training_generator.py` lines 104-208):
exactly 7 descriptors on days 0..6. -/
def generateTriathlonWeek (week : ℤ) (phase : TrainingPhase)
    (intensity : WorkoutIntensity) : List WorkoutDescriptor :=
  let base_run0 : ℚ := min (2 + week * (2/10)) 6
  let base_bike0 : ℚ := min (10 + week * 1) 25
  let base_swim0 : ℚ := min (500 + week * 25) 1500
  let base_run := if phase = .taper then base_run0 * (7/10) else base_run0
  let base_bike := if phase = .taper then base_bike0 * (7/10) else base_bike0
  let base_swim := if phase = .taper then base_swim0 * (7/10) else base_swim0
  [ { name := "Rest Day", workout_type := .rest, intensity := .easy
      day_of_week := 0, duration_minutes := 0, description := "Complete rest" }
  , { name := "Run - " ++ toString base_run ++ " miles"
      workout_type := .run, intensity := intensity, day_of_week := 1
      duration_minutes := pyInt (base_run * 9)
      distance_miles := some base_run
      description := "Week " ++ toString week ++ " steady run" }
  , { name := "Swim - " ++ toString (pyInt base_swim) ++ " yards"
      workout_type := .swim, intensity := intensity, day_of_week := 2
      duration_minutes := pyInt (base_swim / 25)
      distance_miles := some (base_swim / 1760)
      description := "Week " ++ toString week ++ " swim workout" }
  , { name := "Bike - " ++ toString base_bike ++ " miles"
      workout_type := .bike, intensity := intensity, day_of_week := 3
      duration_minutes := pyInt (base_bike * 3)
      distance_miles := some base_bike
      description := "Week " ++ toString week ++ " bike workout" }
  , { name := "Easy Swim - " ++ toString (pyInt (base_swim * (6/10))) ++ " yards"
      workout_type := .swim, intensity := .easy, day_of_week := 4
      duration_minutes := pyInt (base_swim * (6/10) / 25)
      distance_miles := some (base_swim * (6/10) / 1760)
      description := "Recovery swim" }
  , { name := "Long " ++ (if week % 2 = 0 then "Run" else "Bike") ++ " - "
        ++ toString (base_run * (3/2)) ++ " "
        ++ (if week % 2 = 0 then "miles" else toString (base_bike * (12/10)) ++ " miles")
      workout_type := if week % 2 = 0 then .run else .bike
      intensity := .easy, day_of_week := 5
      duration_minutes :=
        if week % 2 = 0 then pyInt (base_run * (3/2) * 10) else pyInt (base_bike * (12/10) * 3)
      distance_miles := some (if week % 2 = 0 then base_run * (3/2) else base_bike * (12/10))
      description := "Week " ++ toString week ++ " long workout" }
  , { name := "Strength Training", workout_type := .strength, intensity := .moderate
      day_of_week := 6, duration_minutes := 45, description := "Full body strength" } ]

/-- `generate_running_week` (`simple_training_generator.py` lines 211-303):
exactly 7 descriptors on days 0..6. -/
def generateRunningWeek (week : ℤ) (_phase : TrainingPhase)
    (intensity : WorkoutIntensity) : List WorkoutDescriptor :=
  let base_run : ℚ := min (3 + week * (3/10)) 8
  [ { name := "Rest Day", workout_type := .rest, intensity := .easy
      day_of_week := 0, duration_minutes := 0, description := "Complete rest" }
  , { name := "Easy Run - " ++ toString base_run ++ " miles"
      workout_type := .run, intensity := .easy, day_of_week := 1
      duration_minutes := pyInt (base_run * 10)
      distance_miles := some base_run, description := "Recovery run" }
  , { name := "Strength Training", workout_type := .strength, intensity := .moderate
      day_of_week := 2, duration_minutes := 45
      description := "Running-specific strength" }
  , { name := "Tempo Run - " ++ toString (base_run * (8/10)) ++ " miles"
      workout_type := .run, intensity := intensity, day_of_week := 3
      duration_minutes := pyInt (base_run * (8/10) * 8)
      distance_miles := some (base_run * (8/10))
      description := "Tempo pace workout" }
  , { name := "Rest Day", workout_type := .rest, intensity := .easy
      day_of_week := 4, duration_minutes := 0
      description := "Rest before long run" }
  , { name := "Long Run - " ++ toString (base_run * (3/2)) ++ " miles"
      workout_type := .run, intensity := .easy, day_of_week := 5
      duration_minutes := pyInt (base_run * (3/2) * 11)
      distance_miles := some (base_run * (3/2))
      description := "Weekly long run" }
  , { name := "Cross Training", workout_type := .crossTraining, intensity := .easy
      day_of_week := 6, duration_minutes := 30
      description := "Light cross training" } ]

/-- `generate_general_week` (`simple_training_generator.py` lines 306-334):
one descriptor per entry of a fixed 7-row schedule table, `day_of_week`
being the row index. -/
def generateGeneralWeek (week : ℤ) (_phase : TrainingPhase)
    (intensity : WorkoutIntensity) : List WorkoutDescriptor :=
  let schedule : List (String × WorkoutType × ℤ) :=
    [ ("Strength Training", .strength, 45)
    , ("Cardio Run", .run, 30)
    , ("Upper Body Strength", .strength, 45)
    , ("Rest Day", .rest, 0)
    , ("Lower Body Strength", .strength, 45)
    , ("Cardio Workout", .run, 35)
    , ("Rest Day", .rest, 0) ]
  (List.range schedule.length).zip schedule |>.map fun (day, name, wtype, duration) =>
    { name := name
      workout_type := wtype
      intensity := if wtype ≠ .rest then intensity else .easy
      day_of_week := (day : ℤ)
      duration_minutes := duration
      distance_miles := if wtype = .run then some 3 else none
      description := "Week " ++ toString week ++ " general fitness" }

/-- `generate_week_workouts` (`simple_training_generator.py` lines 82-101):
dispatch on goal type with the phase → base-intensity table. -/
def simpleWeekWorkouts (goalType : GoalType) (week : ℤ)
    (phase : TrainingPhase) : List WorkoutDescriptor :=
  let base_intensity := simpleBaseIntensity phase
  if goalType = .triathlon ∨ goalType = .ironman then
    generateTriathlonWeek week phase base_intensity
  else if goalType = .marathon ∨ goalType = .halfMarathon
      ∨ goalType = .tenK ∨ goalType = .fiveK then
    generateRunningWeek week phase base_intensity
  else
    generateGeneralWeek week phase base_intensity

/-- `intensity_adjustment` values set by `_analyze_recent_feedback`. -/
inductive IntensityAdjustment
  | decrease | increase | maintain
deriving DecidableEq

/-- `recovery_adjustment` values set by `_analyze_recent_feedback`. -/
inductive RecoveryAdjustment
  | more_rest | can_push_harder | maintain
deriving DecidableEq

/-- The feedback dict produced by
`AdaptiveTrainingGenerator._analyze_recent_feedback` and consumed by
`_adapt_workouts_based_feedback`.  A `none` field models an absent key (the
consumer reads keys with `dict.get`, so absent and `None` coincide). -/
structure Feedback where
  has_feedback : Bool
  num_workouts : ℕ := 0
  avg_perceived_exertion : Option ℚ := none
  avg_energy_level : Option ℚ := none
  avg_enjoyment : Option ℚ := none
  intensity_adjustment : Option IntensityAdjustment := none
  recovery_adjustment : Option RecoveryAdjustment := none
deriving DecidableEq

/-- The subjective-rating columns of a `WorkoutLog` row
(`app/models/training.py` lines 135-172) read by feedback analysis; each is
nullable on a 1-10 scale. -/
structure WorkoutLogRatings where
  perceived_exertion : Option ℕ := none
  energy_level : Option ℕ := none
  enjoyment_level : Option ℕ := none
deriving DecidableEq

/-- The Python list comprehension
`[f(log) for log in recent_logs if f(log)]`: keeps a rating only when it is
truthy, i.e. neither `None` nor `0`. -/
def truthyRatings (f : WorkoutLogRatings → Option ℕ)
    (logs : List WorkoutLogRatings) : List ℕ :=
  logs.filterMap fun l =>
    match f l with
    | some n => if n = 0 then none else some n
    | none => none

/-- `sum(scores) / len(scores) if scores else None`. -/
def ratingAvg (xs : List ℕ) : Option ℚ :=
  if xs = [] then none else some ((xs.sum : ℚ) / (xs.length : ℚ))

/-- `AdaptiveTrainingGenerator._analyze_recent_feedback`
(`adaptive_training_generator.py` lines 257-304), as a function of the logs
the lookback query returned (user-filtered, last 2 weeks, most recent 10).
The source guards each adjustment with the truthiness of the average, so an
average of `0` (unreachable, since kept scores are ≥ 1) would also leave the
key absent. -/
def analyzeRecentFeedback (recentLogs : List WorkoutLogRatings) : Feedback :=
  if recentLogs = [] then
    { has_feedback := false }
  else
    let avgEx := ratingAvg (truthyRatings WorkoutLogRatings.perceived_exertion recentLogs)
    let avgEn := ratingAvg (truthyRatings WorkoutLogRatings.energy_level recentLogs)
    let avgEj := ratingAvg (truthyRatings WorkoutLogRatings.enjoyment_level recentLogs)
    { has_feedback := true
      num_workouts := recentLogs.length
      avg_perceived_exertion := avgEx
      avg_energy_level := avgEn
      avg_enjoyment := avgEj
      intensity_adjustment :=
        match avgEx with
        | some q =>
            if q = 0 then none
            else some (if 7 ≤ q then .decrease else if q ≤ 3 then .increase else .maintain)
        | none => none
      recovery_adjustment :=
        match avgEn with
        | some q =>
            if q = 0 then none
            else some (if q ≤ 4 then .more_rest else if 8 ≤ q then .can_push_harder else .maintain)
        | none => none }

/-- Body of the per-workout loop of
`AdaptiveTrainingGenerator._adapt_workouts_based_feedback`
(`adaptive_training_generator.py` lines 314-342): the intensity/duration
adjustment followed by the recovery adjustment, the latter testing the
original `workout_type` and the already-adjusted intensity. -/
def adaptWorkoutBasedFeedback (feedback : Feedback)
    (workout : WorkoutDescriptor) : WorkoutDescriptor :=
  let adapted :=
    if feedback.intensity_adjustment = some .decrease then
      { workout with
        intensity :=
          if workout.intensity = .hard then .moderate
          else if workout.intensity = .moderate then .easy
          else workout.intensity
        duration_minutes := pyInt ((workout.duration_minutes : ℚ) * (9/10)) }
    else if feedback.intensity_adjustment = some .increase then
      { workout with
        intensity :=
          if workout.intensity = .easy then .moderate
          else if workout.intensity = .moderate then .hard
          else workout.intensity
        duration_minutes := pyInt ((workout.duration_minutes : ℚ) * (11/10)) }
    else
      workout
  if feedback.recovery_adjustment = some .more_rest then
    if workout.workout_type ≠ .rest ∧ (adapted.intensity = .hard ∨ adapted.intensity = .moderate) then
      { adapted with
        intensity := .easy
        name := "Recovery " ++ adapted.name
        description := "Adjusted for additional recovery based on your recent energy levels" }
    else adapted
  else adapted

/-- `AdaptiveTrainingGenerator._adapt_workouts_based_feedback`
(`adaptive_training_generator.py` lines 306-344). -/
def adaptWorkoutsBasedFeedback (workouts : List WorkoutDescriptor)
    (feedback : Feedback) : List WorkoutDescriptor :=
  if feedback.has_feedback = false then workouts
  else workouts.map (adaptWorkoutBasedFeedback feedback)

/-- One intensity-tier step down, floored at `recovery` — the adaptation
rule as the specification words it ("step every non-rest workout's
intensity tier down one level (floor at recovery)"), for comparison with
the code's adjustment. -/
def specStepDown : WorkoutIntensity → WorkoutIntensity
  | .veryHard => .hard
  | .hard => .moderate
  | .moderate => .easy
  | .easy => .recovery
  | .recovery => .recovery

/-- One intensity-tier step up, capped at `very_hard` — the adaptation rule
as the specification words it, for comparison with the code's
adjustment. -/
def specStepUp : WorkoutIntensity → WorkoutIntensity
  | .veryHard => .veryHard
  | .hard => .veryHard
  | .moderate => .hard
  | .easy => .moderate
  | .recovery => .easy

/-- The intensity tier after the feedback step, as the amended claim
describes it: `decrease` steps down one level only from `hard` or
`moderate`, `increase` steps up one level only from `easy` or `moderate`,
and every other combination leaves the tier unchanged. -/
def claimStepIntensity (adj : Option IntensityAdjustment)
    (i : WorkoutIntensity) : WorkoutIntensity :=
  if adj = some .decrease then
    (if i = .hard ∨ i = .moderate then specStepDown i else i)
  else if adj = some .increase then
    (if i = .easy ∨ i = .moderate then specStepUp i else i)
  else i

/-- The amended claim's condition for the recovery override: feedback asks
for `more_rest`, the workout is not of rest type, and its already-stepped
intensity tier is exactly `moderate` or `hard`. -/
def claimMoreRest (fb : Feedback) (w : WorkoutDescriptor) : Prop :=
  fb.recovery_adjustment = some .more_rest ∧ w.workout_type ≠ .rest
    ∧ (claimStepIntensity fb.intensity_adjustment w.intensity = .hard
        ∨ claimStepIntensity fb.intensity_adjustment w.intensity = .moderate)

instance (fb : Feedback) (w : WorkoutDescriptor) : Decidable (claimMoreRest fb w) := by
  unfold claimMoreRest
  infer_instance

/-- `ROLLING_WEEKS` (`AdaptiveTrainingGenerator.__init__`). -/
def ROLLING_WEEKS : ℤ := 2

/-- The week numbers the loop of
`AdaptiveTrainingGenerator._generate_adaptive_workouts`
(`adaptive_training_generator.py` lines 216-218) iterates:
`range(start_week, start_week + num_weeks)` with the
`if week_num > plan.total_weeks: break` guard. -/
def generateWeeksList (start_week num_weeks total_weeks : ℤ) : List ℤ :=
  (((List.range num_weeks.toNat).map fun i : ℕ => start_week + (i : ℤ)).takeWhile
    fun w => decide (w ≤ total_weeks))

/-- The closed integer interval `[a, b]` as a list (empty when `b < a`). -/
def intervalZ (a b : ℤ) : List ℤ :=
  (List.range (b - a + 1).toNat).map fun i : ℕ => a + (i : ℤ)

/-- Outcome of `AdaptiveTrainingGenerator.update_rolling_plan`: the week
numbers for which workouts were generated and the returned boolean. -/
structure RollingResult where
  generated : List ℤ
  result : Bool
deriving DecidableEq

/-- `AdaptiveTrainingGenerator.update_rolling_plan`
(`adaptive_training_generator.py` lines 77-100), as a function of the
plan's `max_generated_week`, the caller's `current_week` and the plan's
`total_weeks`: when `max_generated_week - current_week < ROLLING_WEEKS` it
calls `_generate_adaptive_workouts(start_week=max_generated_week+1,
num_weeks=min(ROLLING_WEEKS - weeks_ahead, total_weeks - start_week + 1))`
and returns `True`; otherwise it generates nothing and returns `False`. -/
def updateRollingPlan (maxGeneratedWeek currentWeek totalWeeks : ℤ) : RollingResult :=
  let weeksAhead := maxGeneratedWeek - currentWeek
  if weeksAhead < ROLLING_WEEKS then
    let weeksToGenerate := ROLLING_WEEKS - weeksAhead
    let startWeek := maxGeneratedWeek + 1
    let numWeeks := min weeksToGenerate (totalWeeks - startWeek + 1)
    { generated := generateWeeksList startWeek numWeeks totalWeeks, result := true }
  else
    { generated := [], result := false }

/-- One `WorkoutLog` row as far as workout completion is concerned
(`app/models/training.py`): the nullable `workout_id` reference, the owning
user, and the subjective ratings. -/
structure LogEntry where
  workout_id : Option ℕ
  user_id : ℕ
  ratings : WorkoutLogRatings := {}
deriving DecidableEq

/-- `Workout.is_completed` (`app/models/training.py` lines 126-129): a
workout is completed iff a `WorkoutLog` row references it. -/
def isCompleted (logs : List LogEntry) (workoutId : ℕ) : Bool :=
  logs.any fun l => l.workout_id = some workoutId

/-- The state-changing core of the `complete_workout` endpoint
(`app/api/v1/endpoints/training.py` lines 135-208) applied to the log
table: an already-completed workout returns early ("Workout already
completed") before anything is added; otherwise exactly one new
`WorkoutLog` row is inserted.  The boolean reports whether a log was
created.  (The subsequent rolling-window refresh only inserts `Workout`
rows and never touches the log table.) -/
def completeWorkout (logs : List LogEntry) (userId workoutId : ℕ)
    (ratings : WorkoutLogRatings) : List LogEntry × Bool :=
  if isCompleted logs workoutId then
    (logs, false)
  else
    (logs ++ [{ workout_id := some workoutId, user_id := userId, ratings := ratings }], true)

/-- One `Goal` row as far as the one-active-goal invariant is concerned
(`app/models/goal.py`). -/
structure GoalRec where
  id : ℕ
  user_id : ℕ
  status : GoalStatus
deriving DecidableEq

/-- `GoalRepository.get_active_goal` (`goal.py` lines 29-36) viewed as a
test: does the user have an active goal? -/
def hasActiveGoal (goals : List GoalRec) (userId : ℕ) : Bool :=
  goals.any fun g => g.user_id = userId ∧ g.status = .active

/-- `GoalRepository.activate_goal` (`goal.py` lines 77-91): the bulk update
pauses every other active goal of the same user
(`user_id == goal.user_id, id != goal.id, status == ACTIVE`), then the
target goal's row is set active. -/
def activateGoal (goals : List GoalRec) (goal : GoalRec) : List GoalRec :=
  goals.map fun x =>
    if x.user_id = goal.user_id ∧ x.id ≠ goal.id ∧ x.status = .active then
      { x with status := .paused }
    else if x.id = goal.id then
      { x with status := .active }
    else x

/-- The goal-creation endpoint `create_goal`
(`app/api/v1/endpoints/goals.py` lines 33-76) applied to the goal table: if
the user already has an active goal the request is rejected with HTTP 400
before anything is written; otherwise the goal is created (status
`PLANNING`) and, once a training plan is generated, set `ACTIVE` (it stays
`PLANNING` when both generators fail).  The boolean reports acceptance. -/
def createGoalEndpoint (goals : List GoalRec) (userId newId : ℕ)
    (planGenerated : Bool) : List GoalRec × Bool :=
  if hasActiveGoal goals userId then
    (goals, false)
  else
    (goals ++ [{ id := newId, user_id := userId
                 status := if planGenerated then .active else .planning }], true)

/-- Number of active goals a user has. -/
def activeCount (goals : List GoalRec) (userId : ℕ) : ℕ :=
  goals.countP fun g => decide (g.user_id = userId ∧ g.status = .active)

/-- `Goal.calculate_enhanced_progress` (`app/models/goal.py` lines
138-159).  `total_weeks` and `current_week` are the nullable columns of the
goal row; the source's `if not self.total_weeks or not self.current_week`
is Python truthiness, so both `None` and `0` short-circuit to `0.0`. -/
def calculateEnhancedProgress (total_weeks current_week : Option ℕ)
    (completed_workouts_current_week total_workouts_current_week
      total_completed_workouts : ℕ) : ℚ :=
  if total_weeks.getD 0 = 0 ∨ current_week.getD 0 = 0 then 0
  else
    let tw : ℚ := (total_weeks.getD 0 : ℚ)
    let cw : ℤ := (current_week.getD 0 : ℤ)
    let completed_weeks : ℤ := max 0 (cw - 1)
    let week_progress : ℚ := ((completed_weeks : ℚ) / tw) * 100
    let workout_bonus : ℚ :=
      if 0 < total_workouts_current_week then
        ((completed_workouts_current_week : ℚ) / (total_workouts_current_week : ℚ))
          * (1 / tw) * 100
      else 0
    let total_progress := week_progress + workout_bonus
    let total_progress :=
      if 0 < total_completed_workouts ∧ total_progress < 1 then 1 else total_progress
    min 100 total_progress

/-! ## Theorems -/

/-- A `takeWhile (· ≤ t)` that keeps everything. -/
theorem takeWhile_le_eq_self {t : ℤ} :
    ∀ l : List ℤ, (∀ w ∈ l, w ≤ t) → l.takeWhile (fun w => decide (w ≤ t)) = l := by
  intro l h
  induction l with
  | nil => rfl
  | cons a l ih =>
      have ha : a ≤ t := h a (List.mem_cons_self a l)
      simp only [List.takeWhile_cons, decide_eq_true ha]
      exact congrArg (a :: ·) (ih fun w hw => h w (List.mem_cons_of_mem a hw))

/-- The generation loop enumerates the closed interval
`[start_week, start_week + num_weeks - 1]` whenever that interval stays
below the `total_weeks` ceiling. -/
theorem generateWeeksList_eq_interval (s n t : ℤ) (h : s + n - 1 ≤ t) :
    generateWeeksList s n t = intervalZ s (s + n - 1) := by
  have hn : s + n - 1 - s + 1 = n := by ring
  unfold generateWeeksList intervalZ
  rw [hn]
  apply takeWhile_le_eq_self
  intro w hw
  rw [List.mem_map] at hw
  obtain ⟨i, hi, rfl⟩ := hw
  rw [List.mem_range] at hi
  omega

/-- C1 counterexample: on each generation path there is a total-week count
whose four phase week counts do not sum to it (adaptive triathlon plan with
16 weeks: 8+5+2+2 = 17; simple plan with 8 weeks: 4+2+2+1 = 9; triathlon
generator with 10 weeks: 5+4+2+1 = 12). -/
theorem phase_sum_counterexample :
    (getPlanStructure .triathlon 16).sum ≠ (16 : ℤ)
    ∧ (simplePlanPhases 8).sum ≠ (8 : ℤ)
    ∧ (calculatePhaseDistribution 10).sum ≠ (10 : ℤ) := by
  decide

/-- C1 (amended): on every plan-generation path (adaptive, simple or
triathlon generator) the four phase week counts are non-negative, for every
non-negative total-week count; their sum, however, need not equal
`total_weeks`. -/
theorem generated_phase_weeks_nonneg (gt : GoalType) (tw : ℤ) (htw : 0 ≤ tw) :
    (getPlanStructure gt tw).Nonneg ∧ (simplePlanPhases tw).Nonneg
      ∧ (calculatePhaseDistribution tw).Nonneg := by
  have hmax : ∀ a b : ℤ, 0 ≤ a → 0 ≤ max a b := fun a b ha => le_max_of_le_left ha
  have hd : ∀ k : ℤ, 0 ≤ k → 0 ≤ tw.fdiv k := fun k hk => Int.fdiv_nonneg htw hk
  refine ⟨?_, ?_, ?_⟩
  · simp only [getPlanStructure, PhaseWeeks.Nonneg]
    split_ifs <;> refine ⟨?_, ?_, ?_, ?_⟩ <;>
      first
        | exact hmax _ _ (by norm_num)
        | norm_num
  · simp only [simplePlanPhases, PhaseWeeks.Nonneg]
    refine ⟨hd 2 (by norm_num), hd 3 (by norm_num), by norm_num, by norm_num⟩
  · simp only [calculatePhaseDistribution, PhaseWeeks.Nonneg]
    split_ifs <;> norm_num

/-- Witness for `generated_phase_weeks_nonneg` at `total_weeks = 16`. -/
theorem generated_phase_weeks_nonneg_witness :
    (0 : ℤ) ≤ 16
    ∧ ((getPlanStructure .triathlon 16).Nonneg ∧ (simplePlanPhases 16).Nonneg
        ∧ (calculatePhaseDistribution 16).Nonneg) :=
  ⟨by decide, generated_phase_weeks_nonneg .triathlon 16 (by decide)⟩

/-- C6 counterexample: 14 days until the event give an adaptive plan of 8
total weeks, not `max(4, min(32, 14 // 7)) = 4` as the claimed clamp
predicts; and 280 days give 40 weeks, above the claimed 32-week cap. -/
theorem total_weeks_counterexample :
    adaptivePlanTotalWeeks (some 14) = 8
    ∧ createGoalTotalWeeks (some 14) = 4
    ∧ adaptivePlanTotalWeeks (some 14) ≠ createGoalTotalWeeks (some 14)
    ∧ adaptivePlanTotalWeeks (some 280) = 40 := by
  decide

/-- C6 (amended): the goal record's `total_weeks`
(`GoalRepository.create_goal`) is `days_until_event // 7` clamped to
`[4, 32]` (default 12 without an event date), while the adaptive training
plan's `total_weeks` is `max(8, days_available // 7)` with no upper clamp
(default 16 without an event date). -/
theorem total_weeks_amended (d : ℤ) :
    4 ≤ createGoalTotalWeeks (some d)
    ∧ createGoalTotalWeeks (some d) ≤ 32
    ∧ (4 ≤ d.fdiv 7 → d.fdiv 7 ≤ 32 → createGoalTotalWeeks (some d) = d.fdiv 7)
    ∧ 8 ≤ adaptivePlanTotalWeeks (some d)
    ∧ (8 ≤ d.fdiv 7 → adaptivePlanTotalWeeks (some d) = d.fdiv 7)
    ∧ createGoalTotalWeeks none = 12
    ∧ adaptivePlanTotalWeeks none = 16 := by
  simp only [createGoalTotalWeeks, adaptivePlanTotalWeeks]
  refine ⟨?_, ?_, fun h1 h2 => ?_, ?_, fun h1 => ?_, by trivial, by trivial⟩ <;>
    · generalize d.fdiv 7 = x at *
      omega

/-- Witness for `total_weeks_amended`: an event 70 days out yields 10 total
weeks on both paths. -/
theorem total_weeks_amended_witness :
    createGoalTotalWeeks (some 70) = 10 ∧ adaptivePlanTotalWeeks (some 70) = 10 :=
  ⟨((total_weeks_amended 70).2.2.1 (by decide) (by decide)).trans (by decide),
   ((total_weeks_amended 70).2.2.2.2.1 (by decide)).trans (by decide)⟩

/-- C3: when the rolling trigger fires
(`max_generated_week - current_week < ROLLING_WEEKS`), the weeks generated
are exactly `max_generated_week + 1` through
`min(current_week + ROLLING_WEEKS, total_weeks)`, and every generated week
number is beyond `max_generated_week`, so no already-generated week is
rewritten. -/
theorem rolling_window_weeks (maxGen current total : ℤ)
    (htrig : maxGen - current < ROLLING_WEEKS) :
    (updateRollingPlan maxGen current total).generated
        = intervalZ (maxGen + 1) (min (current + ROLLING_WEEKS) total)
    ∧ ∀ w ∈ (updateRollingPlan maxGen current total).generated, maxGen < w := by
  have hgen : (updateRollingPlan maxGen current total).generated
      = generateWeeksList (maxGen + 1)
          (min (ROLLING_WEEKS - (maxGen - current)) (total - (maxGen + 1) + 1)) total := by
    unfold updateRollingPlan
    rw [if_pos htrig]
  have hend : maxGen + 1 + min (ROLLING_WEEKS - (maxGen - current)) (total - (maxGen + 1) + 1) - 1
      = min (current + ROLLING_WEEKS) total := by
    unfold ROLLING_WEEKS at htrig ⊢
    omega
  have hle : maxGen + 1 + min (ROLLING_WEEKS - (maxGen - current)) (total - (maxGen + 1) + 1) - 1
      ≤ total := by
    rw [hend]; exact min_le_right _ _
  constructor
  · rw [hgen, generateWeeksList_eq_interval _ _ _ hle, hend]
  · intro w hw
    rw [hgen, generateWeeksList_eq_interval _ _ _ hle] at hw
    unfold intervalZ at hw
    rw [List.mem_map] at hw
    obtain ⟨i, _, rfl⟩ := hw
    have hi0 : (0 : ℤ) ≤ (i : ℤ) := Int.natCast_nonneg i
    omega

/-- Witness for `rolling_window_weeks`, the spec's scenario:
`current_week = 3`, `max_generated_week = 4`, `ROLLING_WEEKS = 2` generate
exactly week 5. -/
theorem rolling_window_weeks_witness :
    (updateRollingPlan 4 3 16).generated = [5]
    ∧ ∀ w ∈ (updateRollingPlan 4 3 16).generated, (4 : ℤ) < w := by
  have h := rolling_window_weeks 4 3 16 (by decide)
  exact ⟨h.1.trans (by decide), h.2⟩

/-- C7 counterexample: with `max_generated_week = total_weeks = 8` and
`current_week = 8`, `update_rolling_plan` generates nothing yet returns
`True`, so the return value is not "whether a week was generated", and the
terminal state does not return `False`. -/
theorem rolling_update_counterexample :
    (updateRollingPlan 8 8 8).result = true
    ∧ (updateRollingPlan 8 8 8).generated = [] := by
  decide

/-- C7 (amended): `update_rolling_plan` returns `True` iff
`max_generated_week - current_week < ROLLING_WEEKS`, whether or not a week
was actually generated; once `max_generated_week` has reached
`total_weeks`, no further workout is created, but the call still returns
`True` whenever the window condition holds. -/
theorem rolling_update_result (maxGen current total : ℤ) :
    ((updateRollingPlan maxGen current total).result = true
        ↔ maxGen - current < ROLLING_WEEKS)
    ∧ (total ≤ maxGen → (updateRollingPlan maxGen current total).generated = []) := by
  constructor
  · simp only [updateRollingPlan]
    split_ifs with h <;> simp [h]
  · intro hterm
    simp only [updateRollingPlan]
    split_ifs with h
    · show generateWeeksList _ _ _ = []
      unfold generateWeeksList
      have hz : (min (ROLLING_WEEKS - (maxGen - current)) (total - (maxGen + 1) + 1)).toNat
          = 0 := by
        unfold ROLLING_WEEKS at h ⊢
        omega
      rw [hz]
      rfl
    · rfl

/-- Witness for `rolling_update_result` in the terminal state. -/
theorem rolling_update_result_witness :
    (updateRollingPlan 8 8 8).generated = [] :=
  (rolling_update_result 8 8 8).2 (by decide)

/-- Shape of a week built by `generate_triathlon_week`: 7 workouts, days
0..6 in order, rest slots with zero duration. -/
theorem generateTriathlonWeek_shape (week : ℤ) (phase : TrainingPhase)
    (i : WorkoutIntensity) :
    (generateTriathlonWeek week phase i).length = 7
    ∧ (generateTriathlonWeek week phase i).map WorkoutDescriptor.day_of_week
        = [0, 1, 2, 3, 4, 5, 6]
    ∧ ∀ w ∈ generateTriathlonWeek week phase i,
        w.workout_type = .rest → w.duration_minutes = 0 := by
  refine ⟨rfl, rfl, ?_⟩
  intro w hw
  simp only [generateTriathlonWeek, List.mem_cons, List.not_mem_nil, or_false] at hw
  rcases hw with rfl | rfl | rfl | rfl | rfl | rfl | rfl <;> intro h <;>
    first
      | rfl
      | exact absurd h (by decide)
      | (by_cases hp : week % 2 = 0 <;> simp [hp] at h)

/-- Shape of a week built by `generate_running_week`. -/
theorem generateRunningWeek_shape (week : ℤ) (phase : TrainingPhase)
    (i : WorkoutIntensity) :
    (generateRunningWeek week phase i).length = 7
    ∧ (generateRunningWeek week phase i).map WorkoutDescriptor.day_of_week
        = [0, 1, 2, 3, 4, 5, 6]
    ∧ ∀ w ∈ generateRunningWeek week phase i,
        w.workout_type = .rest → w.duration_minutes = 0 := by
  refine ⟨rfl, rfl, ?_⟩
  intro w hw
  simp only [generateRunningWeek, List.mem_cons, List.not_mem_nil, or_false] at hw
  rcases hw with rfl | rfl | rfl | rfl | rfl | rfl | rfl <;> intro h <;>
    first
      | rfl
      | (simp at h)

/-- Shape of a week built by `generate_general_week`. -/
theorem generateGeneralWeek_shape (week : ℤ) (phase : TrainingPhase)
    (i : WorkoutIntensity) :
    (generateGeneralWeek week phase i).length = 7
    ∧ (generateGeneralWeek week phase i).map WorkoutDescriptor.day_of_week
        = [0, 1, 2, 3, 4, 5, 6]
    ∧ ∀ w ∈ generateGeneralWeek week phase i,
        w.workout_type = .rest → w.duration_minutes = 0 := by
  refine ⟨rfl, rfl, ?_⟩
  intro w hw
  simp only [generateGeneralWeek, List.range, List.range.loop, List.zip, List.zipWith,
    List.map, List.mem_cons, List.not_mem_nil, or_false] at hw
  rcases hw with rfl | rfl | rfl | rfl | rfl | rfl | rfl <;> intro h <;>
    first
      | rfl
      | exact absurd h (by decide)
      | (simp at h)

/-- C2 counterexample: an adaptive-generator triathlon week holds 4
workouts, not 7, and for a marathon goal it holds none. -/
theorem seven_workouts_counterexample :
    (adaptiveWeekWorkouts .triathlon 1).length = 4
    ∧ (4 : ℕ) ≠ 7
    ∧ adaptiveWeekWorkouts .marathon 1 = [] := by
  refine ⟨rfl, by decide, rfl⟩

/-- C2 (amended): every week built by the simple generator
(`generate_week_workouts`) has exactly 7 workouts with day-of-week values
exactly 0..6 and its rest slots explicit with zero duration, for every goal
type, week and phase; the adaptive generator's weeks instead hold only 4
workouts (days 1, 2, 3, 5) for triathlon goals and none for any other goal
type. -/
theorem week_workout_structure (gt : GoalType) (week : ℤ) (phase : TrainingPhase) :
    (simpleWeekWorkouts gt week phase).length = 7
    ∧ (simpleWeekWorkouts gt week phase).map WorkoutDescriptor.day_of_week
        = [0, 1, 2, 3, 4, 5, 6]
    ∧ (∀ w ∈ simpleWeekWorkouts gt week phase,
        w.workout_type = .rest → w.duration_minutes = 0)
    ∧ (gt = .triathlon →
        (adaptiveWeekWorkouts gt week).map WorkoutDescriptor.day_of_week = [1, 2, 3, 5])
    ∧ (gt ≠ .triathlon → adaptiveWeekWorkouts gt week = []) := by
  have hsimple : (simpleWeekWorkouts gt week phase).length = 7
      ∧ (simpleWeekWorkouts gt week phase).map WorkoutDescriptor.day_of_week
          = [0, 1, 2, 3, 4, 5, 6]
      ∧ ∀ w ∈ simpleWeekWorkouts gt week phase,
          w.workout_type = .rest → w.duration_minutes = 0 := by
    unfold simpleWeekWorkouts
    split_ifs <;>
      first
        | exact generateTriathlonWeek_shape week phase _
        | exact generateRunningWeek_shape week phase _
        | exact generateGeneralWeek_shape week phase _
  refine ⟨hsimple.1, hsimple.2.1, hsimple.2.2, ?_, ?_⟩ <;>
    cases gt <;> intro h <;>
      first
        | rfl
        | exact absurd h (by decide)

/-- Witness for `week_workout_structure` at a triathlon week. -/
theorem week_workout_structure_witness :
    (simpleWeekWorkouts .triathlon 3 .base).map WorkoutDescriptor.day_of_week
        = [0, 1, 2, 3, 4, 5, 6]
    ∧ (adaptiveWeekWorkouts .triathlon 3).map WorkoutDescriptor.day_of_week
        = [1, 2, 3, 5] :=
  ⟨(week_workout_structure .triathlon 3 .base).2.1,
   (week_workout_structure .triathlon 3 .base).2.2.2.1 rfl⟩

/-- C4 counterexample: with `intensity_adjustment = decrease`, a non-rest
workout at `easy` keeps intensity `easy` instead of stepping down one level
to `recovery` as the claim ("flooring at recovery") requires. -/
theorem adaptation_step_counterexample :
    (adaptWorkoutsBasedFeedback
        [{ name := "Easy Run", workout_type := .run, intensity := .easy
           day_of_week := 3, duration_minutes := 30 }]
        { has_feedback := true, intensity_adjustment := some .decrease }).map
        WorkoutDescriptor.intensity = [.easy]
    ∧ specStepDown .easy = .recovery
    ∧ WorkoutIntensity.easy ≠ .recovery := by
  refine ⟨rfl, rfl, by decide⟩

/-- C4 (amended): under feedback, `decrease` steps intensity down one level
only from `hard` or `moderate` (`easy`, `recovery` and `very_hard` are left
unchanged) and scales every workout's duration — rest workouts included —
by 0.9 (truncated); `increase` steps up one level only from `easy` or
`moderate` (`hard`, `very_hard` and `recovery` unchanged) and scales every
duration by 1.1 (truncated); `more_rest` forces a workout that is not of
rest type and whose (already-adjusted) intensity is exactly `moderate` or
`hard` — not `very_hard` — to `easy`, prefixing its name with
"Recovery ", and leaves every other workout untouched. -/
theorem adaptation_rules (fb : Feedback) (ws : List WorkoutDescriptor)
    (hfb : fb.has_feedback = true) :
    adaptWorkoutsBasedFeedback ws fb = ws.map (adaptWorkoutBasedFeedback fb)
    ∧ ∀ w : WorkoutDescriptor,
      (adaptWorkoutBasedFeedback fb w).workout_type = w.workout_type
      ∧ (adaptWorkoutBasedFeedback fb w).duration_minutes
          = (if fb.intensity_adjustment = some .decrease
             then pyInt ((w.duration_minutes : ℚ) * (9/10))
             else if fb.intensity_adjustment = some .increase
             then pyInt ((w.duration_minutes : ℚ) * (11/10))
             else w.duration_minutes)
      ∧ (adaptWorkoutBasedFeedback fb w).intensity
          = (if claimMoreRest fb w then .easy
             else claimStepIntensity fb.intensity_adjustment w.intensity)
      ∧ (adaptWorkoutBasedFeedback fb w).name
          = (if claimMoreRest fb w then "Recovery " ++ w.name else w.name) := by
  constructor
  · unfold adaptWorkoutsBasedFeedback
    rw [if_neg]
    simp [hfb]
  · intro w
    obtain ⟨nm, wt, it, dow, dur, dm, ty, ds⟩ := w
    unfold adaptWorkoutBasedFeedback claimMoreRest claimStepIntensity
    by_cases hdec : fb.intensity_adjustment = some .decrease
    · by_cases hmr : fb.recovery_adjustment = some .more_rest <;>
        cases it <;> by_cases ht : wt = WorkoutType.rest <;>
          simp [hdec, hmr, ht, specStepDown]
    · by_cases hinc : fb.intensity_adjustment = some .increase
      · by_cases hmr : fb.recovery_adjustment = some .more_rest <;>
          cases it <;> by_cases ht : wt = WorkoutType.rest <;>
            simp [hdec, hinc, hmr, ht, specStepUp]
      · by_cases hmr : fb.recovery_adjustment = some .more_rest <;>
          cases it <;> by_cases ht : wt = WorkoutType.rest <;>
            simp [hdec, hinc, hmr, ht]

/-- Witness for `adaptation_rules` at the combination its amendment is
about: `decrease` together with `more_rest` turns a hard 60-minute run
into moderate (one step down), then — the stepped tier being moderate —
forces it to easy with the "Recovery " prefix, at duration 54. -/
theorem adaptation_rules_witness :
    (adaptWorkoutBasedFeedback
        { has_feedback := true, intensity_adjustment := some .decrease
          recovery_adjustment := some .more_rest }
        { name := "Tempo Run", workout_type := .run, intensity := .hard
          day_of_week := 3, duration_minutes := 60 }).intensity = .easy
    ∧ (adaptWorkoutBasedFeedback
        { has_feedback := true, intensity_adjustment := some .decrease
          recovery_adjustment := some .more_rest }
        { name := "Tempo Run", workout_type := .run, intensity := .hard
          day_of_week := 3, duration_minutes := 60 }).name = "Recovery Tempo Run"
    ∧ (adaptWorkoutBasedFeedback
        { has_feedback := true, intensity_adjustment := some .decrease
          recovery_adjustment := some .more_rest }
        { name := "Tempo Run", workout_type := .run, intensity := .hard
          day_of_week := 3, duration_minutes := 60 }).duration_minutes = 54 := by
  have h := (adaptation_rules
      { has_feedback := true, intensity_adjustment := some .decrease
        recovery_adjustment := some .more_rest } [] rfl).2
      { name := "Tempo Run", workout_type := .run, intensity := .hard
        day_of_week := 3, duration_minutes := 60 }
  have hcond : claimMoreRest
      { has_feedback := true, intensity_adjustment := some .decrease
        recovery_adjustment := some .more_rest }
      { name := "Tempo Run", workout_type := .run, intensity := .hard
        day_of_week := 3, duration_minutes := 60 } := by
    decide
  refine ⟨h.2.2.1.trans ?_, h.2.2.2.trans ?_, h.2.1.trans ?_⟩
  · rw [if_pos hcond]
  · rw [if_pos hcond]
    rfl
  · rw [if_pos rfl]
    norm_num [pyInt]

/-- Every rating kept by the truthiness filter is at least 1. -/
theorem truthyRatings_one_le (f : WorkoutLogRatings → Option ℕ)
    (logs : List WorkoutLogRatings) : ∀ n ∈ truthyRatings f logs, 1 ≤ n := by
  intro n hn
  unfold truthyRatings at hn
  rw [List.mem_filterMap] at hn
  obtain ⟨l, _, hl⟩ := hn
  revert hl
  cases f l with
  | none => intro h; cases h
  | some m =>
      intro h
      dsimp only at h
      by_cases hm : m = 0
      · rw [if_pos hm] at h
        cases h
      · rw [if_neg hm] at h
        cases h
        omega

/-- A list of positive naturals has sum at least its length. -/
theorem length_le_sum_of_one_le (xs : List ℕ) (h : ∀ n ∈ xs, 1 ≤ n) :
    xs.length ≤ xs.sum := by
  induction xs with
  | nil => simp
  | cons a l ih =>
      have ha := h a (List.mem_cons_self a l)
      have hl := ih fun n hn => h n (List.mem_cons_of_mem a hn)
      simp only [List.length_cons, List.sum_cons]
      omega

/-- An average of truthiness-filtered ratings is at least 1 (and in
particular truthy itself). -/
theorem ratingAvg_one_le (f : WorkoutLogRatings → Option ℕ)
    (logs : List WorkoutLogRatings) (q : ℚ)
    (hq : ratingAvg (truthyRatings f logs) = some q) : 1 ≤ q := by
  unfold ratingAvg at hq
  by_cases he : truthyRatings f logs = []
  · rw [if_pos he] at hq
    cases hq
  · rw [if_neg he] at hq
    cases hq
    have hlen : 0 < (truthyRatings f logs).length := List.length_pos.mpr he
    have hsum : (truthyRatings f logs).length ≤ (truthyRatings f logs).sum :=
      length_le_sum_of_one_le _ (truthyRatings_one_le f logs)
    have hlenq : (0 : ℚ) < ((truthyRatings f logs).length : ℚ) := by
      exact_mod_cast hlen
    exact (one_le_div hlenq).mpr (by exact_mod_cast hsum)

/-- C5: feedback aggregation.  With zero logs in the window the analysis
reports `has_feedback = false` and adaptation is a no-op; with logs
present, `has_feedback = true`, a metric with no truthy samples yields no
adjustment, and otherwise `intensity_adjustment` is `decrease` iff the
exertion average is ≥ 7, `increase` iff ≤ 3, `maintain` otherwise, while
`recovery_adjustment` is `more_rest` iff the energy average is ≤ 4,
`can_push_harder` iff ≥ 8, `maintain` otherwise. -/
theorem feedback_analysis_rules (logs : List WorkoutLogRatings) :
    (logs = [] →
        (analyzeRecentFeedback logs).has_feedback = false
        ∧ ∀ ws, adaptWorkoutsBasedFeedback ws (analyzeRecentFeedback logs) = ws)
    ∧ (logs ≠ [] →
        (analyzeRecentFeedback logs).has_feedback = true
        ∧ (truthyRatings WorkoutLogRatings.perceived_exertion logs = [] →
            (analyzeRecentFeedback logs).intensity_adjustment = none)
        ∧ (truthyRatings WorkoutLogRatings.energy_level logs = [] →
            (analyzeRecentFeedback logs).recovery_adjustment = none)
        ∧ (∀ q, ratingAvg (truthyRatings WorkoutLogRatings.perceived_exertion logs)
              = some q →
            ((analyzeRecentFeedback logs).intensity_adjustment
                = some .decrease ↔ 7 ≤ q)
            ∧ ((analyzeRecentFeedback logs).intensity_adjustment
                = some .increase ↔ q ≤ 3)
            ∧ ((analyzeRecentFeedback logs).intensity_adjustment
                = some .maintain ↔ 3 < q ∧ q < 7))
        ∧ (∀ q, ratingAvg (truthyRatings WorkoutLogRatings.energy_level logs)
              = some q →
            ((analyzeRecentFeedback logs).recovery_adjustment
                = some .more_rest ↔ q ≤ 4)
            ∧ ((analyzeRecentFeedback logs).recovery_adjustment
                = some .can_push_harder ↔ 8 ≤ q)
            ∧ ((analyzeRecentFeedback logs).recovery_adjustment
                = some .maintain ↔ 4 < q ∧ q < 8))) := by
  constructor
  · rintro rfl
    exact ⟨rfl, fun ws => rfl⟩
  · intro hne
    have hhf : (analyzeRecentFeedback logs).has_feedback = true := by
      simp [analyzeRecentFeedback, if_neg hne]
    refine ⟨hhf, ?_, ?_, ?_, ?_⟩
    · intro hempty
      have hnone : ratingAvg (truthyRatings WorkoutLogRatings.perceived_exertion logs)
          = none := by
        unfold ratingAvg
        rw [if_pos hempty]
      simp [analyzeRecentFeedback, if_neg hne, hnone]
    · intro hempty
      have hnone : ratingAvg (truthyRatings WorkoutLogRatings.energy_level logs)
          = none := by
        unfold ratingAvg
        rw [if_pos hempty]
      simp [analyzeRecentFeedback, if_neg hne, hnone]
    · intro q hq
      have h1 : 1 ≤ q := ratingAvg_one_le _ logs q hq
      have hq0 : ¬ q = 0 := by linarith
      have hfield : (analyzeRecentFeedback logs).intensity_adjustment
          = some (if 7 ≤ q then IntensityAdjustment.decrease
              else if q ≤ 3 then .increase else .maintain) := by
        simp [analyzeRecentFeedback, if_neg hne, hq, hq0]
      refine ⟨?_, ?_, ?_⟩ <;> rw [hfield]
      · split_ifs with h7 h3
        · simp [h7]
        · simpa using h7
        · simpa using h7
      · split_ifs with h7 h3
        · simp only [Option.some.injEq]
          constructor
          · intro h; cases h
          · intro h; linarith
        · simpa using h3
        · simpa using h3
      · split_ifs with h7 h3
        · simp only [Option.some.injEq]
          constructor
          · intro h; cases h
          · rintro ⟨_, h⟩; linarith
        · simp only [Option.some.injEq]
          constructor
          · intro h; cases h
          · rintro ⟨h, _⟩; linarith
        · simp only [Option.some.injEq]
          push_neg at h7 h3
          exact ⟨fun _ => ⟨h3, h7⟩, fun _ => trivial⟩
    · intro q hq
      have h1 : 1 ≤ q := ratingAvg_one_le _ logs q hq
      have hq0 : ¬ q = 0 := by linarith
      have hfield : (analyzeRecentFeedback logs).recovery_adjustment
          = some (if q ≤ 4 then RecoveryAdjustment.more_rest
              else if 8 ≤ q then .can_push_harder else .maintain) := by
        simp [analyzeRecentFeedback, if_neg hne, hq, hq0]
      refine ⟨?_, ?_, ?_⟩ <;> rw [hfield]
      · split_ifs with h4 h8
        · simp [h4]
        · simpa using h4
        · simpa using h4
      · split_ifs with h4 h8
        · simp only [Option.some.injEq]
          constructor
          · intro h; cases h
          · intro h; linarith
        · simpa using h8
        · simpa using h8
      · split_ifs with h4 h8
        · simp only [Option.some.injEq]
          constructor
          · intro h; cases h
          · rintro ⟨h, _⟩; linarith
        · simp only [Option.some.injEq]
          constructor
          · intro h; cases h
          · rintro ⟨_, h⟩; linarith
        · simp only [Option.some.injEq]
          push_neg at h4 h8
          exact ⟨fun _ => ⟨h4, h8⟩, fun _ => trivial⟩

/-- Witness for `feedback_analysis_rules`: logs with exertion 9 and 8
(average 8.5 ≥ 7) and energy 3 and 3 (average 3 ≤ 4) yield `decrease` and
`more_rest`. -/
theorem feedback_analysis_rules_witness :
    (analyzeRecentFeedback
        [{ perceived_exertion := some 9, energy_level := some 3 },
         { perceived_exertion := some 8, energy_level := some 3 }]).intensity_adjustment
      = some .decrease
    ∧ (analyzeRecentFeedback
        [{ perceived_exertion := some 9, energy_level := some 3 },
         { perceived_exertion := some 8, energy_level := some 3 }]).recovery_adjustment
      = some .more_rest := by
  have hex : truthyRatings WorkoutLogRatings.perceived_exertion
      [{ perceived_exertion := some 9, energy_level := some 3 },
       { perceived_exertion := some 8, energy_level := some 3 }] = [9, 8] := rfl
  have hen : truthyRatings WorkoutLogRatings.energy_level
      [{ perceived_exertion := some 9, energy_level := some 3 },
       { perceived_exertion := some 8, energy_level := some 3 }] = [3, 3] := rfl
  have h := (feedback_analysis_rules
      [{ perceived_exertion := some 9, energy_level := some 3 },
       { perceived_exertion := some 8, energy_level := some 3 }]).2 (by decide)
  refine ⟨(h.2.2.2.1 (17/2) ?_).1.mpr (by norm_num),
    (h.2.2.2.2 3 ?_).1.mpr (by norm_num)⟩
  · rw [hex]
    unfold ratingAvg
    rw [if_neg (by decide)]
    simp only [List.sum_cons, List.sum_nil, List.length_cons, List.length_nil]
    norm_num
  · rw [hen]
    unfold ratingAvg
    rw [if_neg (by decide)]
    simp only [List.sum_cons, List.sum_nil, List.length_cons, List.length_nil]
    norm_num

/-- C8: completion is derived from the existence of a referencing
`WorkoutLog`: completing an already-completed workout changes nothing and
creates no second log; a completed workout stays completed across any
completion call; and a workout referenced by at most one log is still
referenced by at most one log afterwards. -/
theorem completion_derived (logs : List LogEntry) (uid wid : ℕ)
    (r : WorkoutLogRatings) :
    (isCompleted logs wid = true → completeWorkout logs uid wid r = (logs, false))
    ∧ (∀ wid', isCompleted logs wid' = true →
        isCompleted (completeWorkout logs uid wid r).1 wid' = true)
    ∧ (logs.countP (fun l => decide (l.workout_id = some wid)) ≤ 1 →
        (completeWorkout logs uid wid r).1.countP
            (fun l => decide (l.workout_id = some wid)) ≤ 1) := by
  refine ⟨?_, ?_, ?_⟩
  · intro h
    unfold completeWorkout
    rw [if_pos h]
  · intro wid' h
    unfold completeWorkout
    split_ifs
    · exact h
    · show ((logs ++ [_]).any _) = true
      rw [List.any_append]
      unfold isCompleted at h
      rw [h]
      rfl
  · intro h
    unfold completeWorkout
    split_ifs with hc
    · exact h
    · have h0 : logs.countP (fun l => decide (l.workout_id = some wid)) = 0 := by
        rw [List.countP_eq_zero]
        intro l hl hEq
        apply hc
        unfold isCompleted
        rw [List.any_eq_true]
        exact ⟨l, hl, hEq⟩
      show ((logs ++ [_]).countP _) ≤ 1
      rw [List.countP_append, h0]
      simp [List.countP_cons]

/-- Witness for `completion_derived`: re-completing a logged workout is a
no-op. -/
theorem completion_derived_witness :
    completeWorkout [{ workout_id := some 5, user_id := 1 }] 1 5 {}
        = ([{ workout_id := some 5, user_id := 1 }], false) :=
  (completion_derived [{ workout_id := some 5, user_id := 1 }] 1 5 {}).1 (by decide)

/-- Bounding the tail of `calculate_enhanced_progress`: clamping into
`[0, 100]` and the 1-percent floor. -/
theorem progress_clamp_bound (tp : ℚ) (h : 0 ≤ tp) (tc : ℕ) :
    0 ≤ min 100 (if 0 < tc ∧ tp < 1 then 1 else tp)
    ∧ min 100 (if 0 < tc ∧ tp < 1 then 1 else tp) ≤ 100
    ∧ (0 < tc → 1 ≤ min 100 (if 0 < tc ∧ tp < 1 then 1 else tp)) := by
  refine ⟨?_, min_le_left _ _, ?_⟩
  · apply le_min (by norm_num)
    split_ifs
    · norm_num
    · exact h
  · intro htc
    split_ifs with hcond
    · norm_num
    · apply le_min (by norm_num)
      push_neg at hcond
      exact hcond htc

/-- C10: for non-negative workout counts with `completed ≤ total`, the
enhanced progress is in `[0, 100]`; it is 0 when `total_weeks` or
`current_week` is unset (Python-falsy); and it is at least 1 when both are
set (truthy) and at least one workout has ever been completed. -/
theorem enhanced_progress_bounds (tw cw : Option ℕ) (c t tc : ℕ) (_hct : c ≤ t) :
    (0 ≤ calculateEnhancedProgress tw cw c t tc
        ∧ calculateEnhancedProgress tw cw c t tc ≤ 100)
    ∧ ((tw = none ∨ cw = none) → calculateEnhancedProgress tw cw c t tc = 0)
    ∧ (tw.getD 0 ≠ 0 → cw.getD 0 ≠ 0 → 0 < tc →
        1 ≤ calculateEnhancedProgress tw cw c t tc) := by
  unfold calculateEnhancedProgress
  by_cases h0 : tw.getD 0 = 0 ∨ cw.getD 0 = 0
  · rw [if_pos h0]
    refine ⟨⟨le_refl 0, by norm_num⟩, fun _ => rfl, ?_⟩
    intro h1 h2 _
    rcases h0 with h | h
    · exact absurd h h1
    · exact absurd h h2
  · rw [if_neg h0]
    push_neg at h0
    obtain ⟨htw, hcw⟩ := h0
    dsimp only
    have h1 : (0:ℚ) ≤ ((max 0 ((cw.getD 0 : ℤ) - 1) : ℤ) : ℚ) / ((tw.getD 0 : ℕ) : ℚ) * 100
        + (if 0 < t then ((c : ℚ) / (t : ℚ)) * (1 / ((tw.getD 0 : ℕ) : ℚ)) * 100 else 0) := by
      have ha : (0:ℚ) ≤ ((max 0 ((cw.getD 0 : ℤ) - 1) : ℤ) : ℚ) := by
        exact_mod_cast le_max_left 0 _
      have hb : (0:ℚ) ≤ ((tw.getD 0 : ℕ) : ℚ) := by positivity
      apply add_nonneg
      · exact mul_nonneg (div_nonneg ha hb) (by norm_num)
      · split_ifs
        · positivity
        · exact le_refl 0
    refine ⟨⟨(progress_clamp_bound _ h1 tc).1, (progress_clamp_bound _ h1 tc).2.1⟩, ?_, ?_⟩
    · intro h
      exfalso
      rcases h with rfl | rfl
      · simp at htw
      · simp at hcw
    · intro _ _ htc
      exact (progress_clamp_bound _ h1 tc).2.2 htc

/-- Witness for `enhanced_progress_bounds`: a goal in week 3 of 10 with 2
of 7 workouts done this week and 5 completed overall. -/
theorem enhanced_progress_bounds_witness :
    1 ≤ calculateEnhancedProgress (some 10) (some 3) 2 7 5 :=
  (enhanced_progress_bounds (some 10) (some 3) 2 7 5 (by decide)).2.2
    (by decide) (by decide) (by decide)

/-- In a goal table whose ids are distinct, at most one row carries any
given id. -/
theorem countP_id_le_one (l : List GoalRec) (h : (l.map GoalRec.id).Nodup) (a : ℕ) :
    l.countP (fun y => decide (y.id = a)) ≤ 1 := by
  induction l with
  | nil => simp
  | cons x l ih =>
      rw [List.map_cons, List.nodup_cons] at h
      rw [List.countP_cons]
      by_cases hx : x.id = a
      · have h0 : l.countP (fun y => decide (y.id = a)) = 0 := by
          rw [List.countP_eq_zero]
          intro y hy hya
          apply h.1
          rw [List.mem_map]
          exact ⟨y, hy, by rw [of_decide_eq_true hya, hx]⟩
        simp [h0, hx]
      · simp only [hx, decide_eq_true_eq, if_neg hx]
        simpa using ih h.2

/-- C9: the one-active-goal-per-athlete invariant.  Activating a goal
pauses every other active goal of that athlete; if every athlete had at
most one active goal before, the same holds afterwards (given distinct goal
ids); and creating a goal while the user already has an active one is
rejected with the table unchanged. -/
theorem one_active_goal (goals : List GoalRec) (goal : GoalRec)
    (hmem : goal ∈ goals) (hids : (goals.map GoalRec.id).Nodup)
    (hinv : ∀ uid, activeCount goals uid ≤ 1) :
    (∀ x ∈ activateGoal goals goal, x.user_id = goal.user_id → x.id ≠ goal.id →
        x.status ≠ .active)
    ∧ (∀ uid, activeCount (activateGoal goals goal) uid ≤ 1)
    ∧ (∀ uid newId p, hasActiveGoal goals uid = true →
        createGoalEndpoint goals uid newId p = (goals, false)) := by
  have hid_inj : ∀ x ∈ goals, x.id = goal.id → x = goal := by
    intro x hx hxid
    exact List.inj_on_of_nodup_map hids hx hmem hxid
  refine ⟨?_, ?_, ?_⟩
  · intro x hx hxu hxid
    unfold activateGoal at hx
    rw [List.mem_map] at hx
    obtain ⟨y, hy, rfl⟩ := hx
    by_cases hc1 : y.user_id = goal.user_id ∧ y.id ≠ goal.id ∧ y.status = .active
    · rw [if_pos hc1]
      intro hst
      cases hst
    · rw [if_neg hc1] at hxu hxid ⊢
      by_cases hc2 : y.id = goal.id
      · rw [if_pos hc2] at hxid
        exact absurd hc2 hxid
      · rw [if_neg hc2] at hxu hxid ⊢
        intro hst
        exact hc1 ⟨hxu, hxid, hst⟩
  · intro uid
    unfold activeCount activateGoal
    rw [List.countP_map]
    by_cases hu : uid = goal.user_id
    · subst hu
      refine le_trans (List.countP_mono_left ?_) (countP_id_le_one goals hids goal.id)
      intro y hy hpy
      simp only [Function.comp_apply, decide_eq_true_eq] at hpy
      by_cases hc1 : y.user_id = goal.user_id ∧ y.id ≠ goal.id ∧ y.status = .active
      · rw [if_pos hc1] at hpy
        rcases hpy with ⟨_, hst⟩
        cases hst
      · by_cases hc2 : y.id = goal.id
        · exact decide_eq_true hc2
        · rw [if_neg hc1, if_neg hc2] at hpy
          exact absurd ⟨hpy.1, hc2, hpy.2⟩ hc1
    · refine le_trans (List.countP_mono_left ?_) (hinv uid)
      intro y hy hpy
      simp only [Function.comp_apply, decide_eq_true_eq] at hpy
      by_cases hc1 : y.user_id = goal.user_id ∧ y.id ≠ goal.id ∧ y.status = .active
      · rw [if_pos hc1] at hpy
        rcases hpy with ⟨_, hst⟩
        cases hst
      · by_cases hc2 : y.id = goal.id
        · rw [if_neg hc1, if_pos hc2] at hpy
          have := hid_inj y hy hc2
          subst this
          exact (hu hpy.1.symm).elim
        · rw [if_neg hc1, if_neg hc2] at hpy
          exact decide_eq_true (by exact ⟨hpy.1, hpy.2⟩)
  · intro uid newId p hact
    unfold createGoalEndpoint
    rw [if_pos hact]

/-- Witness for `one_active_goal`: activating user 7's paused goal 2 while
goal 1 is active leaves user 7 with a single active goal, and creating a
goal for user 7 is rejected. -/
theorem one_active_goal_witness :
    activeCount
        (activateGoal [⟨1, 7, .active⟩, ⟨2, 7, .paused⟩] ⟨2, 7, .paused⟩) 7 ≤ 1
    ∧ createGoalEndpoint [⟨1, 7, .active⟩, ⟨2, 7, .paused⟩] 7 3 true
        = ([⟨1, 7, .active⟩, ⟨2, 7, .paused⟩], false) := by
  have hinv : ∀ uid, activeCount [(⟨1, 7, .active⟩ : GoalRec), ⟨2, 7, .paused⟩] uid ≤ 1 := by
    intro uid
    by_cases h : uid = 7
    · subst h
      decide
    · have h0 : activeCount [(⟨1, 7, .active⟩ : GoalRec), ⟨2, 7, .paused⟩] uid = 0 := by
        unfold activeCount
        rw [List.countP_eq_zero]
        intro g hg hp
        simp only [List.mem_cons, List.not_mem_nil, or_false] at hg
        rw [decide_eq_true_eq] at hp
        rcases hg with rfl | rfl
        · exact h hp.1.symm
        · cases hp.2
      rw [h0]
      norm_num
  have h := one_active_goal [⟨1, 7, .active⟩, ⟨2, 7, .paused⟩] ⟨2, 7, .paused⟩
    (by decide) (by decide) hinv
  exact ⟨h.2.1 7, h.2.2 7 3 true (by decide)⟩

end AtaraxAi
